import Mathlib

/-!
Verification of the DownloadV1 job-store / download-lifecycle logic.

Shallow embedding of the Python sources:
 * `src/state_storage.py` — `StateStorage` (`_save_state`, `initialize`,
   `update_item`, `get_all_items`, `cleanup_old_items`)
 * `src/utils.py` — `update_download_status`, the yt-dlp progress hooks
 * `src/download.py` — `download_video` retry loop, `cancel_download`
 * `src/models.py` — `DownloadState.update_status`, `increment_retry`
 * `src/app.py` — the `/api/cancel/...` endpoint, `periodic_downloads_cleanup`

Machine reals (Python floats, `time.time()` values) are modelled as
exact rationals; an ISO timestamp string is modelled by the string
together with the result of `datetime.fromisoformat` on it (`some t`
when parsing succeeds with epoch value `t`, `none` when it raises
`ValueError`).
-/

/-- A value that the code stores in a timestamp-like field: either a number
(Python `float`) or a string carrying its `fromisoformat` parse result. -/
inductive TVal where
  | num (t : ℚ)
  | strT (s : String) (parse : Option ℚ)
deriving DecidableEq, Repr

/-- Python truthiness for a timestamp-like value: `0` and `""` are falsy. -/
def tvFalsy : TVal → Bool
  | .num t => t == 0
  | .strT s _ => s == ""

/-- Python `a or b` over optional timestamp-like values: a present, truthy
left operand wins; otherwise the right operand is the result. -/
def pyOr (a b : Option TVal) : Option TVal :=
  match a with
  | some v => if tvFalsy v then b else some v
  | none => b

/-- Projection of the dict records the app stores per download id
(the fields read or written by the functions under verification;
a field that the dict may lack is an `Option`). -/
structure JobRec where
  status : Option String := none
  progress : Option ℚ := none
  error : Option String := none
  timestamp : Option TVal := none
  updated_at : Option TVal := none
  created_at : Option TVal := none
  file_path : Option String := none
deriving DecidableEq, Repr

/-- A stored value: the usual dict record, or some non-dict payload
(`isinstance(value, dict)` checks in the source distinguish the two). -/
inductive CVal where
  | dictC (r : JobRec)
  | otherC
deriving DecidableEq, Repr

/-- The in-memory map `StateStorage.state`, keyed by download id. -/
abbrev JStore := List (String × CVal)

/-- Lookup by key (Python `self.state.get(key)`). -/
def lookupJ : JStore → String → Option CVal
  | [], _ => none
  | (k, v) :: rest, key => if k = key then some v else lookupJ rest key

/-- Assignment `self.state[key] = v` for a key already present: replaces the
stored value in place (Python dicts have unique keys). -/
def setAllJ : JStore → String → CVal → JStore
  | [], _, _ => []
  | (k', v') :: rest, key, v =>
    if k' = key then (key, v) :: setAllJ rest key v
    else (k', v') :: setAllJ rest key v

/-! ## `StateStorage._save_state` (src/state_storage.py lines 93-109) -/

/-- The observable file-system operations a durable commit could perform.
`verifyReparse` names the spec's "re-read and parse the temp file" step so
that its presence or absence in the commit sequence can be stated. -/
inductive FsOp where
  | writeTemp
  | flushTemp
  | fsyncTemp
  | verifyReparse
  | renameBackup
  | renamePrimary
deriving DecidableEq, Repr

/-- The exact sequence of file-system operations `_save_state` performs,
as written in the source: open/write/flush/fsync the temp file, then
`os.replace(state_file, backup_file)` when the primary exists, then
`os.replace(temp_file, state_file)`. -/
def saveStateOps (primaryExists : Bool) : List FsOp :=
  [FsOp.writeTemp, FsOp.flushTemp, FsOp.fsyncTemp]
    ++ (if primaryExists then [FsOp.renameBackup] else [])
    ++ [FsOp.renamePrimary]

/-- Contents of one store file: a nonempty JSON text that parses to a map,
a nonempty text that `json.loads` rejects, or an empty file. -/
inductive FileContent where
  | valid (m : JStore)
  | corrupt
  | empty
deriving DecidableEq, Repr

/-- The three paths `StateStorage` touches: `state_file`, `state_file.backup`,
`state_file.temp`; `none` means the file does not exist. -/
structure Disk where
  primary : Option FileContent := none
  backup : Option FileContent := none
  temp : Option FileContent := none
deriving DecidableEq, Repr

/-- Effect of `_save_state` on the three files: the temp file receives the
serialized map (always valid JSON), the primary — when it exists — is renamed
onto the backup path, and the temp file is renamed onto the primary path. -/
def saveStateDisk (m : JStore) (d : Disk) : Disk :=
  let d1 : Disk := { d with temp := some (FileContent.valid m) }
  let d2 : Disk :=
    if d1.primary.isSome then
      { d1 with backup := d1.primary, primary := none }
    else d1
  { d2 with primary := d2.temp, temp := none }

/-! ## `StateStorage.initialize` (src/state_storage.py lines 25-72)

Named `storageInit` here; it models the method `initialize`. -/

/-- `StateStorage.initialize`: returns the loaded in-memory map and the disk
after the call (the source calls `_save_state` only in the branches where the
primary file is missing). -/
def storageInit (d : Disk) : JStore × Disk :=
  match d.primary with
  | some (FileContent.valid m) => (m, d)
  | some FileContent.empty => ([], d)
  | some FileContent.corrupt =>
    match d.backup with
    | some (FileContent.valid m) => (m, d)
    | some _ => ([], d)
    | none => ([], d)
  | none =>
    match d.backup with
    | some bc =>
      let m := match bc with
        | FileContent.valid m0 => m0
        | _ => []
      (m, saveStateDisk m d)
    | none => ([], saveStateDisk [] d)

/-! ## `StateStorage.get_all_items` / `set_item` with an explicit heap
(src/state_storage.py lines 124-135 and 184-186)

Python dicts are heap objects; aliasing is made explicit with addresses. -/

/-- A heap mapping addresses to dict objects. -/
def Heap : Type := ℕ → JStore

/-- Write one heap cell. -/
def heapWrite (h : Heap) (a : ℕ) (v : JStore) : Heap :=
  fun x => if x = a then v else h x

/-- A `StateStorage` object: it holds a reference to its `state` dict. -/
structure StorageObj where
  stateAddr : ℕ
deriving DecidableEq

/-- `get_all_items`: the source is `return self.state` — it returns the
internal dict object itself, i.e. its reference, not a copy. -/
def get_all_items (st : StorageObj) : ℕ :=
  st.stateAddr

/-- `set_item(key, value)`: `self.state[key] = value` under the storage lock
(key inserted when absent, overwritten when present). -/
def set_item (st : StorageObj) (h : Heap) (key : String) (v : CVal) : Heap :=
  let cur := h st.stateAddr
  let updated :=
    if (lookupJ cur key).isSome then setAllJ cur key v else cur ++ [(key, v)]
  heapWrite h st.stateAddr updated

/-! ## `update_download_status` (src/utils.py lines 26-68)

`get_item` hands back the stored dict object itself and `update_item` merges
the fully-updated dict back under the same key, so the net effect on the
store is exactly the field mutations shown. -/

/-- `update_download_status(download_id, status, progress, error)`: on a
present record, set `status`, set `progress` when one is supplied, set
`error` when the message is truthy (nonempty), stamp `updated_at`, and
commit; a missing record is only logged. -/
def update_download_status (store : JStore) (download_id status : String)
    (progress : Option ℚ) (error : Option String) (now : ℚ) : JStore :=
  match lookupJ store download_id with
  | none => store
  | some CVal.otherC => store
  | some (CVal.dictC st) =>
    let st1 := { st with status := some status }
    let st2 := match progress with
      | some p => { st1 with progress := some p }
      | none => st1
    let st3 := match error with
      | some e => if e = "" then st2 else { st2 with error := some e }
      | none => st2
    let st4 := { st3 with updated_at := some (TVal.num now) }
    setAllJ store download_id (CVal.dictC st4)

/-! ## `StateStorage.cleanup_old_items` (src/state_storage.py lines 188-221) -/

/-- The timestamp the sweep uses for one record:
`value.get("timestamp") or value.get("updated_at") or value.get("created_at")`. -/
def effTimestamp (r : JobRec) : Option TVal :=
  pyOr (pyOr r.timestamp r.updated_at) r.created_at

/-- Whether `cleanup_old_items` marks one stored value for deletion:
non-dicts are skipped, a falsy/absent timestamp is skipped, an unparseable
string timestamp hits `continue`, and otherwise the record is deleted exactly
when `now - timestamp > max_age_hours * 3600`. The record's `status` is
never consulted. -/
def cleanupShouldDelete (now max_age_hours : ℚ) : CVal → Bool
  | CVal.otherC => false
  | CVal.dictC r =>
    match effTimestamp r with
    | none => false
    | some tv =>
      if tvFalsy tv then false
      else
        match tv with
        | TVal.num t => decide (now - t > max_age_hours * 3600)
        | TVal.strT _ (some t) => decide (now - t > max_age_hours * 3600)
        | TVal.strT _ none => false

/-- `cleanup_old_items(max_age_hours)`: delete every marked key. -/
def cleanup_old_items (now max_age_hours : ℚ) (store : JStore) : JStore :=
  store.filter (fun kv => ! cleanupShouldDelete now max_age_hours kv.2)

/-! ## `periodic_downloads_cleanup` (src/app.py lines 739-782) -/

/-- The `created_at` the app-level sweep resolves for a record, in epoch
seconds: a truthy string field is parsed with `fromisoformat`, falling back
on `ValueError` — like in every non-string case — to
`float(state.get("updated_at", time.time()))`; `none` models the fallback
itself raising (a string `updated_at`), which hits `continue`. -/
def sweepCreatedAt (now : ℚ) (r : JobRec) : Option ℚ :=
  let fallback : Option ℚ :=
    match r.updated_at with
    | some (TVal.num t) => some t
    | some (TVal.strT _ _) => none
    | none => some now
  match r.created_at with
  | some (TVal.strT s p) =>
    if s = "" then fallback
    else
      match p with
      | some t => some t
      | none => fallback
  | _ => fallback

/-- Whether `periodic_downloads_cleanup` deletes one record: age above
30 minutes. The record's `status` is never consulted. -/
def sweepShouldDelete (now : ℚ) (r : JobRec) : Bool :=
  match sweepCreatedAt now r with
  | none => false
  | some c => decide ((now - c) / 60 > 30)

/-- Python `key.startswith(pre)`, computed on the character lists. -/
def pyStartswith (s pre : String) : Bool :=
  pre.data.isPrefixOf s.data

/-- `periodic_downloads_cleanup`: walk the store; for every key with the
`download_` prefix whose record is old enough, remove the file at
`file_path` when it exists, then delete the record. Returns the surviving
store and the surviving files. -/
def periodic_downloads_cleanup (now : ℚ) :
    JStore → List String → JStore × List String
  | [], files => ([], files)
  | (k, v) :: rest, files =>
    if pyStartswith k "download_" then
      match v with
      | CVal.dictC r =>
        if sweepShouldDelete now r then
          let files' :=
            match r.file_path with
            | some fp => if files.contains fp then files.erase fp else files
            | none => files
          periodic_downloads_cleanup now rest files'
        else
          let res := periodic_downloads_cleanup now rest files
          ((k, v) :: res.1, res.2)
      | CVal.otherC =>
        let res := periodic_downloads_cleanup now rest files
        ((k, v) :: res.1, res.2)
    else
      let res := periodic_downloads_cleanup now rest files
      ((k, v) :: res.1, res.2)

/-! ## The cancel endpoint (src/app.py lines 578-607)

`POST /api/cancel/{download_id}` checks existence under the key
`download_<id>` but then calls `update_download_status(download_id, ...)`,
which looks the record up under the raw id. -/

/-- The error message the endpoint records. -/
def cancelMsg : String := "Загрузка отменена пользователем"

/-- The `/api/cancel/{download_id}` handler: 404 when no record exists under
`download_<id>`; otherwise update the record under the raw id to status
`cancelled`, progress `0`, with `cancelMsg` — no terminal-status check. -/
def api_cancel_download (store : JStore) (download_id : String) (now : ℚ) :
    Except ℕ JStore :=
  match lookupJ store ("download_" ++ download_id) with
  | none => Except.error 404
  | some _ =>
    Except.ok (update_download_status store download_id "cancelled"
      (some 0) (some cancelMsg) now)

/-! ## `models.DownloadState` (src/models.py lines 86-116) -/

/-- `models.DownloadStatus`. -/
inductive DStatus where
  | initializing
  | pending
  | downloading
  | converting
  | processing
  | completed
  | error
  | expired
  | retrying
  | cancelled
deriving DecidableEq, Repr

/-- Projection of `models.DownloadState` (the fields the verified functions
read or write; clock values are ticks handed in by the caller). -/
structure DLState where
  id : String
  url : String
  status : DStatus
  progress : ℚ := 0
  error : Option String := none
  file_path : Option String := none
  file_size : Option ℤ := none
  retry_count : ℕ := 0
  max_retries : ℕ := 3
  created_at : ℕ := 0
  updated_at : ℕ := 0
deriving DecidableEq, Repr

/-- `DownloadState.update_status(new_status, error)`: sets the status, sets
`error` only when the message is truthy (nonempty), stamps `updated_at` —
and never clears a previously recorded error. -/
def update_status (s : DLState) (new_status : DStatus) (error : Option String)
    (now : ℕ) : DLState :=
  let e := match error with
    | some m => if m = "" then s.error else some m
    | none => s.error
  { s with status := new_status, error := e, updated_at := now }

/-- `DownloadState.increment_retry()`: bump the counter; `true` while
`retry_count <= max_retries` still allows another attempt. -/
def increment_retry (s : DLState) : DLState × Bool :=
  ({ s with retry_count := s.retry_count + 1 },
    decide (s.retry_count + 1 ≤ s.max_retries))

/-! ## `download.download_video` (src/download.py lines 62-129) -/

/-- The error taxonomy of `src/download.py`. -/
inductive DlErr where
  | netErr (m : String)
  | procErr (m : String)
  | valErr (m : String)
deriving DecidableEq, Repr

/-- `str(e)` — the message carried by the exception. -/
def errMsg : DlErr → String
  | DlErr.netErr m => m
  | DlErr.procErr m => m
  | DlErr.valErr m => m

/-- Classified as transient by `except (NetworkError, ProcessingError)`. -/
def isTransient : DlErr → Bool
  | DlErr.netErr _ => true
  | DlErr.procErr _ => true
  | DlErr.valErr _ => false

/-- How `_attempt_download` classifies an `httpx` failure:
timeout → `NetworkError`, HTTP error with a 5xx status → `NetworkError`,
other HTTP error → `ValidationError`, anything else → `ProcessingError`. -/
def classifyFailure : Option ℕ → Bool → String → DlErr
  | some code, _, m => if 500 ≤ code then DlErr.netErr m else DlErr.valErr m
  | none, true, _ => DlErr.netErr "Превышено время ожидания запроса"
  | none, false, m => DlErr.procErr m

/-- One modelled attempt of `_attempt_download`: the POST either succeeds
with a response body (optional `file_path` / `file_size`) or raises. -/
inductive Attempt where
  | ok (fp : Option String) (fsz : Option ℤ)
  | fail (e : DlErr)
deriving DecidableEq, Repr

/-- Observable events of the retry loop: status updates written through
`update_status` and `asyncio.sleep` backoff delays. -/
inductive Event where
  | statusEv (st : DStatus) (error : Option String)
  | sleepEv (seconds : ℕ)
deriving DecidableEq, Repr

/-- Result of running the loop against a finite list of modelled attempts:
it returned, it raised, or the modelled attempts ran out mid-loop. -/
inductive RunResult where
  | completedR (s : DLState)
  | raised (s : DLState) (e : DlErr)
  | pending (s : DLState)
deriving DecidableEq, Repr

/-- The state a `RunResult` carries. -/
def outState : RunResult → DLState
  | RunResult.completedR s => s
  | RunResult.raised s _ => s
  | RunResult.pending s => s

/-- The message of the exhausted-retries `Error` update. -/
def exhaustedMsg (m : String) : String :=
  "Превышено количество попыток: " ++ m

/-- `download_video(request, state)`: each iteration sets `Downloading`,
attempts the POST; on success records `file_path`, `file_size`,
`progress = 100` and `Completed`; on `NetworkError`/`ProcessingError` it
increments the retry counter and either records `Retrying` and sleeps
`2 ** retry_count` seconds or records `Error` and raises; on
`ValidationError` it records `Error` and raises with no retry. -/
def download_video (now : ℕ) : DLState → List Attempt → RunResult × List Event
  | s, [] => (RunResult.pending (update_status s DStatus.downloading none now), [Event.statusEv DStatus.downloading none])
  | s, a :: rest =>
    let s1 := update_status s DStatus.downloading none now
    match a with
    | Attempt.ok fp fsz =>
      let s2 : DLState := { s1 with file_path := fp, file_size := fsz, progress := 100 }
      let s3 := update_status s2 DStatus.completed none now
      (RunResult.completedR s3,
        [Event.statusEv DStatus.downloading none, Event.statusEv DStatus.completed none])
    | Attempt.fail e =>
      if isTransient e then
        let si := increment_retry s1
        if si.2 then
          let s3 := update_status si.1 DStatus.retrying (some (errMsg e)) now
          let res := download_video now s3 rest
          (res.1,
            [Event.statusEv DStatus.downloading none,
             Event.statusEv DStatus.retrying (some (errMsg e)),
             Event.sleepEv (2 ^ si.1.retry_count)] ++ res.2)
        else
          let s3 := update_status si.1 DStatus.error (some (exhaustedMsg (errMsg e))) now
          (RunResult.raised s3 e,
            [Event.statusEv DStatus.downloading none,
             Event.statusEv DStatus.error (some (exhaustedMsg (errMsg e)))])
      else
        let s3 := update_status s1 DStatus.error (some (errMsg e)) now
        (RunResult.raised s3 e,
          [Event.statusEv DStatus.downloading none,
           Event.statusEv DStatus.error (some (errMsg e))])

/-- `download.cancel_download(state)`: raise `ValidationError` when the
status is `Completed`, `Error` or `Expired` (the state is untouched);
otherwise — including on an already-`Cancelled` state — apply
`update_status(CANCELLED)`. -/
def cancel_download (s : DLState) (now : ℕ) : Except String DLState :=
  if s.status = DStatus.completed ∨ s.status = DStatus.error
      ∨ s.status = DStatus.expired then
    Except.error "Невозможно отменить завершенную или неудачную загрузку"
  else
    Except.ok (update_status s DStatus.cancelled none now)

/-! ## The yt-dlp progress hooks (src/utils.py lines 255-271 and 579-635)

Python `int()` on the нonnegative float products involved truncates
downward; both hooks work on exact nonnegative counters, so `Nat`
division models `int((a / b) * 85)` as `a * 85 / b`. -/

/-- The `status` field of a yt-dlp progress event. -/
inductive HookStatus where
  | downloading
  | finished
  | errorH
  | otherH
deriving DecidableEq, Repr

/-- The `progress_hook` of `download_loom_video`: the percentage it writes to
the progress file (`none` when it writes nothing). For a `downloading` event
it prefers fragments (`5 + int(fragment_index/fragment_count*85)`, capped at
90), then bytes (`5 + int(downloaded/total*85)`, capped at 90), then bumping
the current file value by 1 (capped at 90); a `finished` event writes 98. -/
def loomProgressHook (st : HookStatus) (downloaded total fragment_index fragment_count current : ℕ) : Option ℕ :=
  match st with
  | HookStatus.downloading =>
    if fragment_count > 0 then
      some (min 90 (5 + fragment_index * 85 / fragment_count))
    else if total > 0 then
      some (min 90 (5 + downloaded * 85 / total))
    else
      some (min 90 (current + 1))
  | HookStatus.finished => some 98
  | _ => none

/-- What the `get_safe_ydl_opts` hook passes to `update_download_status`:
a status string with an optional progress. On `downloading` the total is
`d.get('total_bytes') or d.get('total_bytes_estimate', 0)` and the progress
is `downloaded/total*100` (exact rational here), or `0` without a total;
`finished` maps to status `completed` with progress 100; `error` maps to
status `error` with no progress. -/
def safeProgressHook (st : HookStatus) (total_bytes : Option ℕ) (total_bytes_estimate downloaded_bytes : ℕ) : Option (String × Option ℚ) :=
  match st with
  | HookStatus.downloading =>
    let total : ℕ := match total_bytes with
      | some t => if t = 0 then total_bytes_estimate else t
      | none => total_bytes_estimate
    let progress : ℚ := if total = 0 then 0 else (downloaded_bytes : ℚ) / (total : ℚ) * 100
    some ("downloading", some progress)
  | HookStatus.finished => some ("completed", some 100)
  | HookStatus.errorH => some ("error", none)
  | HookStatus.otherH => none

/-! ## `StateStorage.update_item` (src/state_storage.py lines 137-175)

Generic model over dicts with primitive fields, to state the merge
semantics field by field. -/

/-- A primitive Python value stored in a record field. -/
inductive Prim where
  | strP (s : String)
  | numP (q : ℚ)
  | boolP (b : Bool)
  | noneP
deriving DecidableEq, Repr

/-- A flat Python dict. -/
abbrev PDict := List (String × Prim)

/-- Field lookup `d.get(f)`. -/
def dictGet : PDict → String → Option Prim
  | [], _ => none
  | (k, v) :: rest, f => if k = f then some v else dictGet rest f

/-- Assignment `d[k] = v`: replaces the value of an existing key in place,
appends a new key at the end (Python dict insertion order). -/
def dictSet : PDict → String → Prim → PDict
  | [], k, v => [(k, v)]
  | (k', v') :: rest, k, v =>
    if k' = k then (k, v) :: rest else (k', v') :: dictSet rest k v

/-- `cur.update(upd)`: assign every key of `upd` into `cur`, left to right. -/
def dictUpdate (cur upd : PDict) : PDict :=
  upd.foldl (fun acc kv => dictSet acc kv.1 kv.2) cur

/-- A value held by the generic store: a dict or some non-dict payload. -/
inductive UVal where
  | dictU (d : PDict)
  | primU (p : Prim)
deriving DecidableEq, Repr

/-- The generic store. -/
abbrev UStore := List (String × UVal)

/-- Key lookup in the generic store. -/
def lookupU : UStore → String → Option UVal
  | [], _ => none
  | (k, v) :: rest, key => if k = key then some v else lookupU rest key

/-- `self.state[key] = v` in the generic store. -/
def storeSet : UStore → String → UVal → UStore
  | [], k, v => [(k, v)]
  | (k', v') :: rest, k, v =>
    if k' = k then (k, v) :: rest else (k', v') :: storeSet rest k v

/-- `update_item(key, value, **kwargs)` on an initialized store: kwargs are
merged into `value` first (a non-dict or `None` `value` is replaced by the
kwargs dict); a missing key stores `value` as-is with a warning; an existing
dict record is updated in place by `current.update(value)`; an existing
non-dict record is replaced. `current.update` on a `None` or primitive
`value` raises, which the method logs and re-raises (`Except.error`). -/
def update_item (store : UStore) (key : String) (value : Option UVal)
    (kwargs : PDict) : Except String UStore :=
  let v : Option UVal :=
    if kwargs.isEmpty then value
    else
      match value with
      | none => some (UVal.dictU kwargs)
      | some (UVal.dictU d) => some (UVal.dictU (dictUpdate d kwargs))
      | some (UVal.primU _) => some (UVal.dictU kwargs)
  match lookupU store key with
  | none =>
    match v with
    | none => Except.ok (storeSet store key (UVal.primU Prim.noneP))
    | some v0 => Except.ok (storeSet store key v0)
  | some (UVal.dictU cur) =>
    match v with
    | some (UVal.dictU vd) =>
      Except.ok (storeSet store key (UVal.dictU (dictUpdate cur vd)))
    | some (UVal.primU _) => Except.error "dict.update on a non-mapping"
    | none => Except.error "dict.update on None"
  | some (UVal.primU _) =>
    match v with
    | none => Except.ok (storeSet store key (UVal.primU Prim.noneP))
    | some v0 => Except.ok (storeSet store key v0)

/-! ## Concrete records and small helpers used by the theorems -/

/-- The `status` field of the record stored under `id`. -/
def recStatusOf (store : JStore) (id : String) : Option String :=
  match lookupJ store id with
  | some (CVal.dictC r) => r.status
  | _ => none

/-- The `progress` field of the record stored under `id`. -/
def recProgressOf (store : JStore) (id : String) : Option ℚ :=
  match lookupJ store id with
  | some (CVal.dictC r) => r.progress
  | _ => none

/-- An in-flight (non-terminal) record whose timestamp is far in the past. -/
def oldDownloadingRec : JobRec :=
  { status := some "downloading", progress := some 42,
    timestamp := some (TVal.num 100) }

/-- A completed record with its file on disk. -/
def doneRec : JobRec :=
  { status := some "completed", progress := some 100,
    file_path := some "f.mp4", updated_at := some (TVal.num 100) }

/-- A plain in-flight record. -/
def stubRec : JobRec := { status := some "downloading", progress := some 50 }

/-- The initial `DownloadState` as built by `prepare_download`. -/
def initDL : DLState := { id := "j1", url := "http://e/v", status := DStatus.initializing }

/-! ## Helper lemmas about store lookup and assignment -/

theorem lookupJ_setAllJ (store : JStore) (k : String) (v : CVal)
    (h : (lookupJ store k).isSome) : lookupJ (setAllJ store k v) k = some v := by
  induction store with
  | nil => simp [lookupJ] at h
  | cons kv rest ih =>
    rcases kv with ⟨k1, v1⟩
    by_cases hk : k1 = k
    · subst hk
      simp [setAllJ, lookupJ]
    · simp only [lookupJ, if_neg hk] at h
      simp [setAllJ, lookupJ, hk, ih h]

theorem lookupJ_append_self (store : JStore) (k : String) (v : CVal)
    (h : lookupJ store k = none) : lookupJ (store ++ [(k, v)]) k = some v := by
  induction store with
  | nil => simp [lookupJ]
  | cons kv rest ih =>
    by_cases hk : kv.1 = k
    · simp [lookupJ, hk] at h
    · simp only [lookupJ, hk, if_neg hk] at h
      simpa [lookupJ, hk] using ih h

theorem lookupU_storeSet (store : UStore) (k : String) (v : UVal) :
    lookupU (storeSet store k v) k = some v := by
  induction store with
  | nil => simp [storeSet, lookupU]
  | cons kv rest ih =>
    by_cases hk : kv.1 = k
    · rcases kv with ⟨k1, v1⟩
      simp only at hk
      simp [storeSet, lookupU, hk]
    · rcases kv with ⟨k1, v1⟩
      simp only at hk
      simp [storeSet, lookupU, hk, ih]

/-! ## C1 — the durable commit sequence of `_save_state` -/

/-- C1 (counterexample): on a commit with an existing primary file,
`_save_state` performs no verify-by-reparse step at all, so the claimed
sequence "... verify the temp file by re-reading and parsing it, then the
two renames" is not what the code executes. -/
theorem C1_counterexample :
    (saveStateOps true).contains FsOp.verifyReparse = false
      ∧ (saveStateOps false).contains FsOp.verifyReparse = false := by
  decide

/-- C1 (amended): every durable commit of `StateStorage._save_state` writes
the full map to the temp file, flushes and fsyncs it, then renames the
current primary to the backup path (only when a primary exists), then
renames the temp file onto the primary path; it contains no
verify-by-reparse step. On disk the commit leaves the serialized map as
primary, no temp file, and the old primary (when there was one) as backup. -/
theorem C1_thm :
    (∀ pe : Bool,
      saveStateOps pe
        = [FsOp.writeTemp, FsOp.flushTemp, FsOp.fsyncTemp]
            ++ (if pe then [FsOp.renameBackup] else []) ++ [FsOp.renamePrimary]
      ∧ (saveStateOps pe).contains FsOp.verifyReparse = false)
    ∧ ∀ (m : JStore) (d : Disk),
        saveStateDisk m d
          = { primary := some (FileContent.valid m),
              backup := if d.primary.isSome then d.primary else d.backup,
              temp := none } := by
  constructor
  · intro pe
    cases pe <;> exact ⟨rfl, rfl⟩
  · intro m d
    rcases d with ⟨p, b, t⟩
    cases p <;> simp [saveStateDisk]

/-! ## C4 — `initialize` recovery behaviour -/

/-- The concrete backup content of the C4 scenario. -/
def backupMap : JStore := [("a", CVal.dictC stubRec)]

/-- C4 (counterexample): with a corrupt primary and a valid backup,
`initialize` recovers the backup content into memory but does **not**
restore it as the primary file — the disk is returned untouched, the
primary still corrupt. -/
theorem C4_counterexample :
    storageInit { primary := some FileContent.corrupt,
                  backup := some (FileContent.valid backupMap) }
      = (backupMap,
         { primary := some FileContent.corrupt,
           backup := some (FileContent.valid backupMap) }) := by
  rfl

/-- C4 (amended): `initialize` loads the map from a valid primary; on a
corrupt primary it falls back to the backup **in memory only**, rewriting no
file (even when both are corrupt no fresh primary is written); only when the
primary file is missing does it write: it restores a valid backup as primary,
or starts from an empty map and writes a fresh primary when both files are
absent. -/
theorem C4_thm :
    (∀ (m : JStore) (bk tp : Option FileContent),
      storageInit { primary := some (FileContent.valid m), backup := bk, temp := tp }
        = (m, { primary := some (FileContent.valid m), backup := bk, temp := tp }))
    ∧ (∀ (m : JStore) (tp : Option FileContent),
      storageInit { primary := some FileContent.corrupt,
                    backup := some (FileContent.valid m), temp := tp }
        = (m, { primary := some FileContent.corrupt,
                backup := some (FileContent.valid m), temp := tp }))
    ∧ (∀ (bk : Option FileContent) (tp : Option FileContent),
      (bk = some FileContent.corrupt ∨ bk = some FileContent.empty ∨ bk = none) →
      storageInit { primary := some FileContent.corrupt, backup := bk, temp := tp }
        = ([], { primary := some FileContent.corrupt, backup := bk, temp := tp }))
    ∧ (∀ (m : JStore) (tp : Option FileContent),
      storageInit { primary := none, backup := some (FileContent.valid m), temp := tp }
        = (m, { primary := some (FileContent.valid m),
                backup := some (FileContent.valid m), temp := none }))
    ∧ (∀ tp : Option FileContent,
      storageInit { primary := none, backup := none, temp := tp }
        = ([], { primary := some (FileContent.valid []), backup := none, temp := none })) := by
  refine ⟨fun m bk tp => rfl, fun m tp => rfl, ?_, fun m tp => rfl, fun tp => rfl⟩
  rintro bk tp (rfl | rfl | rfl) <;> rfl

/-- C4 witness: the amended theorem applied at a corrupt backup. -/
theorem C4_thm_witness :
    storageInit { primary := some FileContent.corrupt,
                  backup := some FileContent.corrupt, temp := none }
      = ([], { primary := some FileContent.corrupt,
               backup := some FileContent.corrupt, temp := none }) :=
  C4_thm.2.2.1 (some FileContent.corrupt) none (Or.inl rfl)

/-! ## C8 — `get_all_items` returns a live reference -/

/-- C8 (counterexample): read through the reference `get_all_items` returned
while the store's dict was empty; after a later `set_item` the read yields
the mutated dict — the "snapshot" changed under the caller. -/
theorem C8_counterexample :
    set_item ⟨0⟩ (fun _ => ([] : JStore)) "a" (CVal.dictC stubRec)
        (get_all_items ⟨0⟩)
      = [("a", CVal.dictC stubRec)] := by
  rfl

/-- C8 (amended): `get_all_items` returns the store's live internal dict
(`return self.state`), not a snapshot copy: any value written by a later
`set_item` is visible when reading through the previously returned
reference. -/
theorem C8_thm (st : StorageObj) (h : Heap) (k : String) (v : CVal) :
    lookupJ (set_item st h k v (get_all_items st)) k = some v := by
  unfold set_item get_all_items heapWrite
  simp only [if_pos rfl]
  by_cases hk : (lookupJ (h st.stateAddr) k).isSome
  · simp only [hk, if_pos]
    exact lookupJ_setAllJ _ _ _ hk
  · simp only [hk, if_neg]
    exact lookupJ_append_self _ _ _ (Option.not_isSome_iff_eq_none.mp hk)

/-! ## C2 — eviction sweeps select by age only, never by status -/

/-- C2 (counterexample): a record in `downloading` status (non-terminal)
whose timestamp is older than the retention window **is** deleted by
`cleanup_old_items` — the sweep never consults the status. -/
theorem C2_counterexample :
    cleanup_old_items 10000 1 [("download_x", CVal.dictC oldDownloadingRec)] = []
      ∧ oldDownloadingRec.status = some "downloading" := by
  refine ⟨?_, rfl⟩
  have hdel : cleanupShouldDelete 10000 1 (CVal.dictC oldDownloadingRec) = true := by
    norm_num [cleanupShouldDelete, effTimestamp, pyOr, tvFalsy, oldDownloadingRec]
  simp [cleanup_old_items, hdel]

/-- C2 (amended): both sweeps select records purely by age. The deletion
decision of `cleanup_old_items` is invariant under any change of the
record's status, and for a record with a truthy numeric timestamp it deletes
exactly when `now - timestamp > max_age_hours * 3600` (touching no files);
`periodic_downloads_cleanup` is likewise status-blind and deletes any
`download_`-prefixed record older than 30 minutes together with its file. -/
theorem C2_thm :
    (∀ (now mah : ℚ) (r : JobRec) (s2 : Option String),
      cleanupShouldDelete now mah (CVal.dictC { r with status := s2 })
        = cleanupShouldDelete now mah (CVal.dictC r))
    ∧ (∀ (now mah t : ℚ) (r : JobRec),
      r.timestamp = some (TVal.num t) → t ≠ 0 →
      cleanupShouldDelete now mah (CVal.dictC r) = decide (now - t > mah * 3600))
    ∧ (∀ (now : ℚ) (r : JobRec) (s2 : Option String),
      sweepShouldDelete now { r with status := s2 } = sweepShouldDelete now r)
    ∧ (∀ (now : ℚ) (r : JobRec) (files : List String) (fp key : String),
      pyStartswith key "download_" = true →
      sweepShouldDelete now r = true →
      r.file_path = some fp →
      files.contains fp = true →
      periodic_downloads_cleanup now [(key, CVal.dictC r)] files
        = ([], files.erase fp)) := by
  refine ⟨fun now mah r s2 => rfl, ?_, fun now r s2 => rfl, ?_⟩
  · intro now mah t r ht hnz
    simp [cleanupShouldDelete, effTimestamp, pyOr, ht, tvFalsy, hnz]
  · intro now r files fp key hpre hdel hfp hc
    simp only [periodic_downloads_cleanup, hpre, hdel, hfp, hc, if_true, if_pos]

/-- C2 witness: the amended theorem applied to the concrete stale
`downloading` record and to a stale completed record with a file. -/
theorem C2_thm_witness :
    cleanupShouldDelete 10000 1 (CVal.dictC oldDownloadingRec)
      = decide ((10000 : ℚ) - 100 > 1 * 3600)
    ∧ periodic_downloads_cleanup 10000 [("download_y", CVal.dictC doneRec)] ["f.mp4"]
      = ([], List.erase ["f.mp4"] "f.mp4") :=
  ⟨C2_thm.2.1 10000 1 100 oldDownloadingRec rfl (by norm_num),
   C2_thm.2.2.2 10000 doneRec ["f.mp4"] "f.mp4" "download_y" (by decide)
     (by norm_num [sweepShouldDelete, sweepCreatedAt, doneRec]) rfl (by decide)⟩

/-! ## C3 — committed progress is not monotone -/

/-- C3 (counterexample): with a last committed progress of 50, an update
supplying the lower candidate 10 commits 10 — the lower candidate is written,
not discarded. -/
theorem C3_counterexample :
    recProgressOf
        (update_download_status [("d1", CVal.dictC stubRec)] "d1" "downloading"
          (some 10) none 7) "d1"
      = some 10
    ∧ stubRec.progress = some 50 ∧ ((10 : ℚ) < 50) := by
  refine ⟨rfl, rfl, by norm_num⟩

/-- C3 (amended): `update_download_status` commits whatever candidate value
it is given — the committed progress equals the supplied candidate
unconditionally (no comparison against the last committed value is made),
and the last committed value survives only when no candidate is supplied. -/
theorem C3_thm (store : JStore) (id status : String) (r : JobRec) (p : ℚ)
    (e : Option String) (now : ℚ)
    (h : lookupJ store id = some (CVal.dictC r)) :
    recProgressOf (update_download_status store id status (some p) e now) id = some p
    ∧ recProgressOf (update_download_status store id status none e now) id = r.progress := by
  have hs : (lookupJ store id).isSome := by simp [h]
  constructor
  · cases e with
    | none =>
      simp [update_download_status, h, recProgressOf, lookupJ_setAllJ store id _ hs]
    | some e0 =>
      by_cases he : e0 = "" <;>
        simp [update_download_status, h, he, recProgressOf,
          lookupJ_setAllJ store id _ hs]
  · cases e with
    | none =>
      simp [update_download_status, h, recProgressOf, lookupJ_setAllJ store id _ hs]
    | some e0 =>
      by_cases he : e0 = "" <;>
        simp [update_download_status, h, he, recProgressOf,
          lookupJ_setAllJ store id _ hs]

/-- C3 witness: the amended theorem on the concrete one-record store. -/
theorem C3_thm_witness :
    recProgressOf
        (update_download_status [("d1", CVal.dictC stubRec)] "d1" "downloading"
          (some 10) none 7) "d1"
      = some 10
    ∧ recProgressOf
        (update_download_status [("d1", CVal.dictC stubRec)] "d1" "downloading"
          none none 7) "d1"
      = stubRec.progress :=
  C3_thm [("d1", CVal.dictC stubRec)] "d1" "downloading" stubRec 10 none 7 rfl

/-! ## C5 — cancellation and terminal states -/

/-- C5 (counterexample): the `/api/cancel` endpoint consulted the record
under `download_a`, then updated the record under the raw id `a` — whose
status was the terminal `completed` — to `cancelled`: a terminal status is
overwritten by a later cancel. -/
theorem C5_counterexample :
    (api_cancel_download
        [("download_a", CVal.dictC stubRec), ("a", CVal.dictC doneRec)] "a" 5).map
        (fun st => recStatusOf st "a")
      = Except.ok (some "cancelled")
    ∧ doneRec.status = some "completed" := by
  exact ⟨rfl, rfl⟩

/-- C5 (amended): only `download.cancel_download` protects terminal records —
it raises `ValidationError` on `Completed`/`Error`/`Expired` (leaving the
state untouched) and re-applies `Cancelled` on an already-cancelled state
(so repeated cancels keep the status `cancelled`); the HTTP cancel endpoint
performs no terminal-status check and sets any record it finds under the raw
id to `cancelled`, whatever its previous status. -/
theorem C5_thm :
    (∀ (s : DLState) (now : ℕ),
      (s.status = DStatus.completed ∨ s.status = DStatus.error
        ∨ s.status = DStatus.expired) →
      cancel_download s now
        = Except.error "Невозможно отменить завершенную или неудачную загрузку")
    ∧ (∀ (s : DLState) (now : ℕ), s.status = DStatus.cancelled →
      cancel_download s now = Except.ok (update_status s DStatus.cancelled none now)
        ∧ (update_status s DStatus.cancelled none now).status = DStatus.cancelled)
    ∧ (∀ (store : JStore) (id : String) (r : JobRec) (now : ℚ) (w : CVal),
      lookupJ store ("download_" ++ id) = some w →
      lookupJ store id = some (CVal.dictC r) →
      ∃ st2, api_cancel_download store id now = Except.ok st2
        ∧ recStatusOf st2 id = some "cancelled") := by
  refine ⟨?_, ?_, ?_⟩
  · intro s now h
    simp only [cancel_download, if_pos h]
  · intro s now h
    constructor
    · simp [cancel_download, h]
    · rfl
  · intro store id r now w h1 h2
    have hs : (lookupJ store id).isSome := by simp [h2]
    have hmsg : ¬ (cancelMsg = "") := by decide
    refine ⟨update_download_status store id "cancelled" (some 0) (some cancelMsg) now,
      ?_, ?_⟩
    · simp only [api_cancel_download, h1]
    · simp [update_download_status, h2, hmsg, recStatusOf,
        lookupJ_setAllJ store id _ hs]

/-- C5 witness: the amended theorem at a completed state, a cancelled state,
and the concrete two-key store of the counterexample. -/
theorem C5_thm_witness :
    cancel_download { initDL with status := DStatus.completed } 0
      = Except.error "Невозможно отменить завершенную или неудачную загрузку"
    ∧ (cancel_download { initDL with status := DStatus.cancelled } 0
        = Except.ok (update_status { initDL with status := DStatus.cancelled }
            DStatus.cancelled none 0)
      ∧ (update_status { initDL with status := DStatus.cancelled }
          DStatus.cancelled none 0).status = DStatus.cancelled)
    ∧ ∃ st2,
        api_cancel_download
          [("download_a", CVal.dictC stubRec), ("a", CVal.dictC doneRec)] "a" 5
          = Except.ok st2
        ∧ recStatusOf st2 "a" = some "cancelled" :=
  ⟨C5_thm.1 { initDL with status := DStatus.completed } 0 (Or.inl rfl),
   C5_thm.2.1 { initDL with status := DStatus.cancelled } 0 rfl,
   C5_thm.2.2 [("download_a", CVal.dictC stubRec), ("a", CVal.dictC doneRec)]
     "a" doneRec 5 (CVal.dictC stubRec) rfl rfl⟩

/-! ## C6 — what the progress hooks actually compute -/

/-- C6 (counterexample): on a fragment sample with index 1 of 2 the loom hook
writes 47, not `1/2 * 100 = 50`; on a `finished` sample it writes 98, not
100; and the generic hook maps `finished` to status `completed` (not
`processing`) with progress 100 immediately. -/
theorem C6_counterexample :
    loomProgressHook HookStatus.downloading 0 0 1 2 0 = some 47
    ∧ (1 * 100 / 2 : ℕ) = 50
    ∧ loomProgressHook HookStatus.finished 0 0 0 0 0 = some 98
    ∧ safeProgressHook HookStatus.finished none 0 0
        = some ("completed", some 100) := by
  exact ⟨rfl, rfl, rfl, rfl⟩

/-- C6 (amended): the loom hook applies its rules in priority order —
fragments first (`5 + int(index/count * 85)` capped at 90, whatever the byte
counters say), then bytes (`5 + int(downloaded/total * 85)` capped at 90),
then bumping the current value by 1 capped at 90; a `finished` sample writes
98. The generic `get_safe_ydl_opts` hook commits status `completed` with
progress 100 as soon as it sees `finished`. -/
theorem C6_thm :
    (∀ downloaded total fragment_index fragment_count current : ℕ,
      0 < fragment_count →
      loomProgressHook HookStatus.downloading downloaded total fragment_index
          fragment_count current
        = some (min 90 (5 + fragment_index * 85 / fragment_count)))
    ∧ (∀ downloaded total fragment_index current : ℕ, 0 < total →
      loomProgressHook HookStatus.downloading downloaded total fragment_index 0 current
        = some (min 90 (5 + downloaded * 85 / total)))
    ∧ (∀ downloaded fragment_index current : ℕ,
      loomProgressHook HookStatus.downloading downloaded 0 fragment_index 0 current
        = some (min 90 (current + 1)))
    ∧ (∀ a b c d e2 : ℕ, loomProgressHook HookStatus.finished a b c d e2 = some 98)
    ∧ (∀ (tb : Option ℕ) (tbe db : ℕ),
      safeProgressHook HookStatus.finished tb tbe db
        = some ("completed", some 100)) := by
  refine ⟨?_, ?_, fun a c cur => rfl, fun a b c d e2 => rfl, fun tb tbe db => rfl⟩
  · intro dl t fi fc cur h
    simp [loomProgressHook, h]
  · intro dl t fi cur h
    simp [loomProgressHook, h]

/-- C6 witness: the amended theorem at a fragment sample and a byte sample. -/
theorem C6_thm_witness :
    loomProgressHook HookStatus.downloading 0 0 1 2 0
      = some (min 90 (5 + 1 * 85 / 2))
    ∧ loomProgressHook HookStatus.downloading 30 60 0 0 7
      = some (min 90 (5 + 30 * 85 / 60)) :=
  ⟨C6_thm.1 0 0 1 2 0 (by decide), C6_thm.2.1 30 60 0 7 (by decide)⟩

/-! ## Unfolding lemmas for the retry loop -/

theorem dv_cons_ok (s : DLState) (fp : Option String) (fsz : Option ℤ)
    (rest : List Attempt) (now : ℕ) :
    download_video now s (Attempt.ok fp fsz :: rest)
      = (RunResult.completedR
          (update_status
            { update_status s DStatus.downloading none now with
                file_path := fp, file_size := fsz, progress := 100 }
            DStatus.completed none now),
         [Event.statusEv DStatus.downloading none,
          Event.statusEv DStatus.completed none]) := rfl

theorem dv_cons_val (s : DLState) (m : String) (rest : List Attempt) (now : ℕ) :
    download_video now s (Attempt.fail (DlErr.valErr m) :: rest)
      = (RunResult.raised
          (update_status (update_status s DStatus.downloading none now)
            DStatus.error (some m) now)
          (DlErr.valErr m),
         [Event.statusEv DStatus.downloading none,
          Event.statusEv DStatus.error (some m)]) := rfl

theorem dv_cons_retry (s : DLState) (e : DlErr) (rest : List Attempt) (now : ℕ)
    (he : isTransient e = true) (hb : s.retry_count + 1 ≤ s.max_retries) :
    download_video now s (Attempt.fail e :: rest)
      = ((download_video now
            (update_status
              { update_status s DStatus.downloading none now with
                  retry_count := s.retry_count + 1 }
              DStatus.retrying (some (errMsg e)) now) rest).1,
         [Event.statusEv DStatus.downloading none,
          Event.statusEv DStatus.retrying (some (errMsg e)),
          Event.sleepEv (2 ^ (s.retry_count + 1))]
           ++ (download_video now
                (update_status
                  { update_status s DStatus.downloading none now with
                      retry_count := s.retry_count + 1 }
                  DStatus.retrying (some (errMsg e)) now) rest).2) := by
  rcases e with m | m | m
  · simp [download_video, increment_retry, update_status, isTransient, hb]
  · simp [download_video, increment_retry, update_status, isTransient, hb]
  · simp [isTransient] at he

theorem dv_cons_exhaust (s : DLState) (e : DlErr) (rest : List Attempt) (now : ℕ)
    (he : isTransient e = true) (hb : s.max_retries < s.retry_count + 1) :
    download_video now s (Attempt.fail e :: rest)
      = (RunResult.raised
          (update_status
            { update_status s DStatus.downloading none now with
                retry_count := s.retry_count + 1 }
            DStatus.error (some (exhaustedMsg (errMsg e))) now) e,
         [Event.statusEv DStatus.downloading none,
          Event.statusEv DStatus.error (some (exhaustedMsg (errMsg e)))]) := by
  have hb2 : ¬ (s.retry_count + 1 ≤ s.max_retries) := by omega
  rcases e with m | m | m
  · simp [download_video, increment_retry, update_status, isTransient, hb2]
  · simp [download_video, increment_retry, update_status, isTransient, hb2]
  · simp [isTransient] at he

theorem exhaustedMsg_ne_empty (m : String) : ¬ exhaustedMsg m = "" := by
  rcases m with ⟨md⟩
  intro h
  have hd : (exhaustedMsg ⟨md⟩).data = ("" : String).data := by rw [h]
  rw [exhaustedMsg] at hd
  simp [String.data_append] at hd

/-! ## C7 — error taxonomy and retry policy of `download_video` -/

/-- C7 (confirmed): in the retry loop, a `ValidationError` surfaces
immediately as `Error` with no retry event and no change to `retry_count`;
a transient `NetworkError`/`ProcessingError` within budget records
`Retrying` with the message, bumps `retry_count`, sleeps `2 ^ retry_count`
seconds (so the delay doubles per attempt) and continues; once
`retry_count + 1` exceeds `max_retries` the loop records `Error` with the
exhaustion message and raises. -/
theorem C7_thm (s : DLState) (rest : List Attempt) (now : ℕ) (m : String)
    (hm : ¬ m = "") :
    (∃ s2, download_video now s (Attempt.fail (DlErr.valErr m) :: rest)
        = (RunResult.raised s2 (DlErr.valErr m),
           [Event.statusEv DStatus.downloading none,
            Event.statusEv DStatus.error (some m)])
      ∧ s2.status = DStatus.error ∧ s2.error = some m
      ∧ s2.retry_count = s.retry_count)
    ∧ (∀ e : DlErr, isTransient e = true → errMsg e = m →
        s.retry_count + 1 ≤ s.max_retries →
        ∃ s2, (download_video now s (Attempt.fail e :: rest)).1
            = (download_video now s2 rest).1
          ∧ (download_video now s (Attempt.fail e :: rest)).2
            = [Event.statusEv DStatus.downloading none,
               Event.statusEv DStatus.retrying (some m),
               Event.sleepEv (2 ^ (s.retry_count + 1))]
                ++ (download_video now s2 rest).2
          ∧ s2.status = DStatus.retrying
          ∧ s2.retry_count = s.retry_count + 1
          ∧ s2.error = some m)
    ∧ (∀ e : DlErr, isTransient e = true → errMsg e = m →
        s.max_retries < s.retry_count + 1 →
        ∃ s2, download_video now s (Attempt.fail e :: rest)
            = (RunResult.raised s2 e,
               [Event.statusEv DStatus.downloading none,
                Event.statusEv DStatus.error (some (exhaustedMsg m))])
          ∧ s2.status = DStatus.error
          ∧ s2.error = some (exhaustedMsg m)) := by
  refine ⟨?_, ?_, ?_⟩
  · refine ⟨update_status (update_status s DStatus.downloading none now)
        DStatus.error (some m) now,
      dv_cons_val s m rest now, rfl, ?_, rfl⟩
    simp [update_status, hm]
  · intro e he hme hb
    subst hme
    refine ⟨update_status
        { update_status s DStatus.downloading none now with
            retry_count := s.retry_count + 1 }
        DStatus.retrying (some (errMsg e)) now,
      ?_, ?_, rfl, rfl, ?_⟩
    · rw [dv_cons_retry s e rest now he hb]
    · rw [dv_cons_retry s e rest now he hb]
    · simp [update_status, hm]
  · intro e he hme hb
    subst hme
    refine ⟨update_status
        { update_status s DStatus.downloading none now with
            retry_count := s.retry_count + 1 }
        DStatus.error (some (exhaustedMsg (errMsg e))) now,
      dv_cons_exhaust s e rest now he hb, rfl, ?_⟩
    simp [update_status, exhaustedMsg_ne_empty]

/-- C7 witness: the theorem at a fresh state, the empty tail, and the
message "boom" — covering the validation case, the in-budget transient case
and the exhausted case (via a state with `retry_count = 3`). -/
theorem C7_thm_witness :
    (∃ s2, download_video 0 initDL [Attempt.fail (DlErr.valErr "boom")]
        = (RunResult.raised s2 (DlErr.valErr "boom"),
           [Event.statusEv DStatus.downloading none,
            Event.statusEv DStatus.error (some "boom")])
      ∧ s2.status = DStatus.error ∧ s2.error = some "boom"
      ∧ s2.retry_count = initDL.retry_count)
    ∧ (∃ s2, (download_video 0 initDL [Attempt.fail (DlErr.netErr "boom")]).1
          = (download_video 0 s2 []).1
        ∧ (download_video 0 initDL [Attempt.fail (DlErr.netErr "boom")]).2
          = [Event.statusEv DStatus.downloading none,
             Event.statusEv DStatus.retrying (some "boom"),
             Event.sleepEv (2 ^ (initDL.retry_count + 1))]
              ++ (download_video 0 s2 []).2
        ∧ s2.status = DStatus.retrying
        ∧ s2.retry_count = initDL.retry_count + 1
        ∧ s2.error = some "boom")
    ∧ (∃ s2, download_video 0 { initDL with retry_count := 3 }
            [Attempt.fail (DlErr.procErr "boom")]
          = (RunResult.raised s2 (DlErr.procErr "boom"),
             [Event.statusEv DStatus.downloading none,
              Event.statusEv DStatus.error (some (exhaustedMsg "boom"))])
        ∧ s2.status = DStatus.error
        ∧ s2.error = some (exhaustedMsg "boom")) :=
  ⟨(C7_thm initDL [] 0 "boom" (by decide)).1,
   (C7_thm initDL [] 0 "boom" (by decide)).2.1 (DlErr.netErr "boom") rfl rfl
     (by decide),
   (C7_thm { initDL with retry_count := 3 } [] 0 "boom" (by decide)).2.2
     (DlErr.procErr "boom") rfl rfl (by decide)⟩

/-! ## C9 — the filePath/error trichotomy -/

/-- C9 (counterexample): a run that hits one transient failure and then
succeeds reaches a record with status `Completed`, `file_path` set **and**
a non-null `error` — `update_status` never clears `error`, so the claimed
"exactly one of" trichotomy fails on a reachable state. -/
theorem C9_counterexample :
    (outState (download_video 0 initDL
        [Attempt.fail (DlErr.netErr "boom"),
         Attempt.ok (some "f.mp4") (some 5)]).1).status = DStatus.completed
    ∧ (outState (download_video 0 initDL
        [Attempt.fail (DlErr.netErr "boom"),
         Attempt.ok (some "f.mp4") (some 5)]).1).error = some "boom"
    ∧ (outState (download_video 0 initDL
        [Attempt.fail (DlErr.netErr "boom"),
         Attempt.ok (some "f.mp4") (some 5)]).1).file_path = some "f.mp4" := by
  exact ⟨rfl, rfl, rfl⟩

/-- C9 (amended): along any `download_video` run whose validation failures
carry nonempty messages, a run that returns ends with status `Completed` and
progress 100, and a run that raises ends with status `Error` and a non-null
`error`; but the exactly-one trichotomy of the claim does not hold, because
`update_status` never clears `error` — a `Completed` record reached after a
retry keeps the transient failure's message. -/
theorem C9_thm (s : DLState) (atts : List Attempt) (now : ℕ)
    (hv : ∀ m, Attempt.fail (DlErr.valErr m) ∈ atts → ¬ m = "") :
    (∀ s2, (download_video now s atts).1 = RunResult.completedR s2 →
      s2.status = DStatus.completed ∧ s2.progress = 100)
    ∧ (∀ s2 e, (download_video now s atts).1 = RunResult.raised s2 e →
      s2.status = DStatus.error ∧ s2.error.isSome = true) := by
  induction atts generalizing s with
  | nil =>
    constructor
    · intro s2 h
      simp [download_video] at h
    · intro s2 e h
      simp [download_video] at h
  | cons a rest ih =>
    have hvrest : ∀ m, Attempt.fail (DlErr.valErr m) ∈ rest → ¬ m = "" := by
      intro m hmem
      exact hv m (List.mem_cons_of_mem _ hmem)
    rcases a with ⟨fp, fsz⟩ | ⟨e⟩
    · constructor
      · intro s2 h
        rw [dv_cons_ok] at h
        simp only [RunResult.completedR.injEq] at h
        subst h
        exact ⟨rfl, rfl⟩
      · intro s2 e h
        rw [dv_cons_ok] at h
        simp at h
    · rcases e with m | m | m
      · by_cases hb : s.retry_count + 1 ≤ s.max_retries
        · have hstep := dv_cons_retry s (DlErr.netErr m) rest now rfl hb
          constructor
          · intro s2 h
            rw [hstep] at h
            exact (ih _ hvrest).1 s2 h
          · intro s2 e2 h
            rw [hstep] at h
            exact (ih _ hvrest).2 s2 e2 h
        · have hstep := dv_cons_exhaust s (DlErr.netErr m) rest now rfl (by omega)
          constructor
          · intro s2 h
            rw [hstep] at h
            simp at h
          · intro s2 e2 h
            rw [hstep] at h
            simp only [RunResult.raised.injEq] at h
            obtain ⟨h1, h2⟩ := h
            subst h1
            refine ⟨rfl, ?_⟩
            simp [update_status, exhaustedMsg_ne_empty]
      · by_cases hb : s.retry_count + 1 ≤ s.max_retries
        · have hstep := dv_cons_retry s (DlErr.procErr m) rest now rfl hb
          constructor
          · intro s2 h
            rw [hstep] at h
            exact (ih _ hvrest).1 s2 h
          · intro s2 e2 h
            rw [hstep] at h
            exact (ih _ hvrest).2 s2 e2 h
        · have hstep := dv_cons_exhaust s (DlErr.procErr m) rest now rfl (by omega)
          constructor
          · intro s2 h
            rw [hstep] at h
            simp at h
          · intro s2 e2 h
            rw [hstep] at h
            simp only [RunResult.raised.injEq] at h
            obtain ⟨h1, h2⟩ := h
            subst h1
            refine ⟨rfl, ?_⟩
            simp [update_status, exhaustedMsg_ne_empty]
      · have hvm : ¬ m = "" := hv m (List.mem_cons_self _ _)
        constructor
        · intro s2 h
          rw [dv_cons_val] at h
          simp at h
        · intro s2 e2 h
          rw [dv_cons_val] at h
          simp only [RunResult.raised.injEq] at h
          obtain ⟨h1, h2⟩ := h
          subst h1
          refine ⟨rfl, ?_⟩
          simp [update_status, hvm]

/-- C9 witness: the amended theorem applied to the retry-then-success run of
the counterexample. -/
theorem C9_thm_witness :
    (outState (download_video 0 initDL
        [Attempt.fail (DlErr.netErr "boom"),
         Attempt.ok (some "f.mp4") (some 5)]).1).status = DStatus.completed
    ∧ (outState (download_video 0 initDL
        [Attempt.fail (DlErr.netErr "boom"),
         Attempt.ok (some "f.mp4") (some 5)]).1).progress = 100 :=
  (C9_thm initDL
      [Attempt.fail (DlErr.netErr "boom"), Attempt.ok (some "f.mp4") (some 5)] 0
      (by intro m hmem; simp at hmem)).1
    (outState (download_video 0 initDL
      [Attempt.fail (DlErr.netErr "boom"),
       Attempt.ok (some "f.mp4") (some 5)]).1) rfl

/-! ## C10 — `update_item` merges into an existing dict record -/

theorem dictGet_dictSet_ne (d : PDict) (k f : String) (v : Prim)
    (h : ¬ k = f) : dictGet (dictSet d k v) f = dictGet d f := by
  induction d with
  | nil => simp [dictSet, dictGet, h]
  | cons kv rest ih =>
    rcases kv with ⟨k1, v1⟩
    by_cases hk : k1 = k
    · subst hk
      simp [dictSet, dictGet, h]
    · simp [dictSet, dictGet, hk, ih]

theorem dictGet_dictUpdate_notin (cur vd : PDict) (f : String)
    (h : ∀ kv ∈ vd, ¬ kv.1 = f) :
    dictGet (dictUpdate cur vd) f = dictGet cur f := by
  induction vd generalizing cur with
  | nil => simp [dictUpdate]
  | cons kv rest ih =>
    rcases kv with ⟨k1, v1⟩
    have h1 : ¬ k1 = f := h (k1, v1) (List.mem_cons_self _ _)
    have hrest : ∀ kv ∈ rest, ¬ kv.1 = f := fun kv hm => h kv (List.mem_cons_of_mem _ hm)
    calc dictGet (dictUpdate cur ((k1, v1) :: rest)) f
        = dictGet (dictUpdate (dictSet cur k1 v1) rest) f := rfl
      _ = dictGet (dictSet cur k1 v1) f := ih (dictSet cur k1 v1) hrest
      _ = dictGet cur f := dictGet_dictSet_ne cur k1 f v1 h1

/-- C10 (confirmed): for a key already present with a dict record,
`update_item(key, value)` merges `value` into the stored record in place —
the committed record is `current.update(value)`, it is what a subsequent
lookup returns, and every field whose name is not a key of `value` keeps its
previous value. -/
theorem C10_thm (store : UStore) (key : String) (vd cur : PDict) (f : String)
    (h : lookupU store key = some (UVal.dictU cur))
    (hf : ∀ kv ∈ vd, ¬ kv.1 = f) :
    update_item store key (some (UVal.dictU vd)) []
      = Except.ok (storeSet store key (UVal.dictU (dictUpdate cur vd)))
    ∧ lookupU (storeSet store key (UVal.dictU (dictUpdate cur vd))) key
      = some (UVal.dictU (dictUpdate cur vd))
    ∧ dictGet (dictUpdate cur vd) f = dictGet cur f := by
  refine ⟨?_, lookupU_storeSet store key _, dictGet_dictUpdate_notin cur vd f hf⟩
  simp [update_item, h]

/-- C10 witness: merging `progress := 75` into a record keeps its
`status` field. -/
theorem C10_thm_witness :
    update_item
        [("k", UVal.dictU [("status", Prim.strP "downloading"), ("progress", Prim.numP 50)])]
        "k" (some (UVal.dictU [("progress", Prim.numP 75)])) []
      = Except.ok (storeSet
          [("k", UVal.dictU [("status", Prim.strP "downloading"), ("progress", Prim.numP 50)])]
          "k"
          (UVal.dictU (dictUpdate
            [("status", Prim.strP "downloading"), ("progress", Prim.numP 50)]
            [("progress", Prim.numP 75)])))
    ∧ lookupU (storeSet
          [("k", UVal.dictU [("status", Prim.strP "downloading"), ("progress", Prim.numP 50)])]
          "k"
          (UVal.dictU (dictUpdate
            [("status", Prim.strP "downloading"), ("progress", Prim.numP 50)]
            [("progress", Prim.numP 75)]))) "k"
      = some (UVal.dictU (dictUpdate
          [("status", Prim.strP "downloading"), ("progress", Prim.numP 50)]
          [("progress", Prim.numP 75)]))
    ∧ dictGet (dictUpdate
          [("status", Prim.strP "downloading"), ("progress", Prim.numP 50)]
          [("progress", Prim.numP 75)]) "status"
      = dictGet [("status", Prim.strP "downloading"), ("progress", Prim.numP 50)] "status" :=
  C10_thm
    [("k", UVal.dictU [("status", Prim.strP "downloading"), ("progress", Prim.numP 50)])]
    "k" [("progress", Prim.numP 75)]
    [("status", Prim.strP "downloading"), ("progress", Prim.numP 50)] "status" rfl
    (by intro kv hm; simp at hm; subst hm; decide)
